import Mathlib

/-!
Verification of the client-side RPC packet-dispatch engine
(`pw_rpc/client.cc`, `Client::ProcessPacket`).

The dispatch logic is translated directly from `Client::ProcessPacket`.
The collaborators it calls (`Endpoint::ProcessPacket` decode + call lookup,
`Packet::ClientError`, the `Call` handler methods and registry
insert/remove) live outside the given source slice and are modelled from
the spec (sections 3, 4.1, 4.2).  Handler invocations are recorded as an
event trace; packets sent on the channel are recorded as a send trace.
-/

namespace PwRpc

/-- Wire packet types (spec section 3); the client-relevant subset is
RESPONSE, SERVER_ERROR, SERVER_STREAM. -/
inductive PacketType
  | REQUEST
  | RESPONSE
  | CLIENT_STREAM
  | CLIENT_ERROR
  | SERVER_ERROR
  | SERVER_STREAM
  | CANCEL
  | CLIENT_REQUEST_COMPLETION
deriving DecidableEq, Repr

/-- The status codes this engine produces or inspects (spec section 6):
OK, a decode-failure status (DataLoss), Unavailable, FailedPrecondition,
InvalidArgument. -/
inductive Status
  | OK
  | InvalidArgument
  | FailedPrecondition
  | Unavailable
  | DataLoss
deriving DecidableEq, Repr

/-- Call identity: (channel_id, service_id, method_id, call_id),
unique among currently-active calls on an Endpoint (spec section 3). -/
structure CallIdent where
  channel_id : Nat
  service_id : Nat
  method_id : Nat
  call_id : Nat
deriving DecidableEq, Repr

/-- Decoded wire message (spec section 3): identity fields, a type enum,
a status code and an opaque payload (bytes as naturals). -/
structure Packet where
  channel_id : Nat
  service_id : Nat
  method_id : Nat
  call_id : Nat
  type : PacketType
  status : Status
  payload : List Nat
deriving DecidableEq, Repr

/-- The identity carried by a packet. -/
def Packet.ident (p : Packet) : CallIdent :=
  ⟨p.channel_id, p.service_id, p.method_id, p.call_id⟩

/-- Modelled from the spec: `Packet::ClientError(packet, status)`
(pw_rpc internal packet constructor, not in the given slice) builds the
outbound CLIENT_ERROR packet from the inbound packet that triggered it,
carrying the same channel/service/method/call identifiers, the given
status and an empty payload. -/
def Packet.ClientError (p : Packet) (s : Status) : Packet :=
  { channel_id := p.channel_id
    service_id := p.service_id
    method_id := p.method_id
    call_id := p.call_id
    type := PacketType.CLIENT_ERROR
    status := s
    payload := [] }

/-- An in-flight client call as registered in the Endpoint's active-call
set: its identity and its kind flag `has_server_stream`, fixed at
creation (spec section 3). -/
structure Call where
  ident : CallIdent
  has_server_stream : Bool
deriving DecidableEq, Repr

/-- Call lifecycle states (spec section 4.3); Completed and Errored are
terminal. -/
inductive CallState
  | Active
  | Completed
  | Errored
deriving DecidableEq, Repr

/-- A handler invocation observed during packet processing: unary
completion `(payload, status)`, stream completion `(status)`, error
delivery `(status)`, or stream payload delivery. -/
inductive Event
  | unaryCompleted (payload : List Nat) (status : Status)
  | streamCompleted (status : Status)
  | errorDelivered (status : Status)
  | streamPayload (payload : List Nat)
deriving DecidableEq, Repr

/-- The client endpoint: the set of registered channel ids and the
active-call registry (spec sections 3, 4.2). -/
structure Client where
  channels : List Nat
  calls : List Call
deriving DecidableEq, Repr

/-- The observable outcome of one `ProcessPacket` run: the updated
endpoint, the handler invocations (in order), the call removed from the
registry by a terminal transition (with its final state), the packets
sent on the channel, and the returned status. -/
structure ProcResult where
  client : Client
  events : List Event
  terminated : Option (Call × CallState)
  sent : List Packet
  ret : Status
deriving DecidableEq, Repr

/-- Decoding of the type enum byte, in the order the spec lists the
packet types. -/
def decodePacketType : Nat → Option PacketType
  | 0 => some PacketType.REQUEST
  | 1 => some PacketType.RESPONSE
  | 2 => some PacketType.CLIENT_STREAM
  | 3 => some PacketType.CLIENT_ERROR
  | 4 => some PacketType.SERVER_ERROR
  | 5 => some PacketType.SERVER_STREAM
  | 6 => some PacketType.CANCEL
  | 7 => some PacketType.CLIENT_REQUEST_COMPLETION
  | _ => none

/-- Decoding of the status byte (pw_status numeric codes for the codes
this engine uses). -/
def decodeStatus : Nat → Option Status
  | 0 => some Status.OK
  | 3 => some Status.InvalidArgument
  | 9 => some Status.FailedPrecondition
  | 14 => some Status.Unavailable
  | 15 => some Status.DataLoss
  | _ => none

/-- Modelled from the spec: the packet decode step of
`Endpoint::ProcessPacket` (spec section 4.1, not in the given slice) —
a pure function turning an untrusted byte buffer into a Packet or a
decode-failure status, with no side effects.  The frame is the four
identifier bytes, the type byte, the status byte, then the payload. -/
def decode : List Nat → Except Status Packet
  | ch :: sv :: mt :: cl :: ty :: st :: payload =>
    match decodePacketType ty, decodeStatus st with
    | some t, some s => Except.ok ⟨ch, sv, mt, cl, t, s, payload⟩
    | _, _ => Except.error Status.DataLoss
  | _ => Except.error Status.DataLoss

/-- Modelled from the spec: the call-resolution step of
`Endpoint::ProcessPacket` (spec section 4.2, not in the given slice) —
keyed search of the active-call set over
(channel_id, service_id, method_id, call_id); none means no matching
call. -/
def Client.findCall (c : Client) (p : Packet) : Option Call :=
  c.calls.find? (fun k => k.ident == p.ident)

/-- Modelled from the spec: `Endpoint::GetInternalChannel` — channel
lookup by id; here just membership in the registered-channel set. -/
def Client.hasChannel (c : Client) (id : Nat) : Bool :=
  c.channels.contains id

/-- Modelled from the spec: `Endpoint::UnregisterCall` — identity-based
removal from the active-call set (spec section 4.2). -/
def Client.unregisterCall (c : Client) (i : CallIdent) : Client :=
  { c with calls := c.calls.filter (fun k => !(k.ident == i)) }

/-- Modelled from the spec:
`UnaryResponseClientCall::HandleCompleted(payload, status)` — deliver
`(payload, status)` to the unary-completion handler, transition the call
to Completed and unregister it (spec section 4.3 case RESPONSE). -/
def unaryHandleCompleted (c : Client) (k : Call) (payload : List Nat)
    (s : Status) : Client × List Event × Option (Call × CallState) :=
  (c.unregisterCall k.ident,
   [Event.unaryCompleted payload s],
   some (k, CallState.Completed))

/-- Modelled from the spec:
`StreamResponseClientCall::HandleCompleted(status)` — deliver `(status)`
to the stream-completion handler, transition to Completed and
unregister (spec section 4.3 case RESPONSE). -/
def streamHandleCompleted (c : Client) (k : Call) (s : Status) :
    Client × List Event × Option (Call × CallState) :=
  (c.unregisterCall k.ident,
   [Event.streamCompleted s],
   some (k, CallState.Completed))

/-- Modelled from the spec: `Call::HandleError(status)` — deliver the
status to the call's error handler, transition to Errored and
unregister (spec section 4.3 case SERVER_ERROR). -/
def handleError (c : Client) (k : Call) (s : Status) :
    Client × List Event × Option (Call × CallState) :=
  (c.unregisterCall k.ident,
   [Event.errorDelivered s],
   some (k, CallState.Errored))

/-- Modelled from the spec: `Call::HandlePayload(payload)` — deliver the
payload to the stream handler; the call stays Active and registered
(spec section 4.3 case SERVER_STREAM, legal branch). -/
def handlePayload (c : Client) (_k : Call) (payload : List Nat) :
    Client × List Event × Option (Call × CallState) :=
  (c, [Event.streamPayload payload], none)

/-- `Client::ProcessPacket` (pw_rpc/client.cc): decode, channel check,
call resolution, then the packet-type dispatch.  Sends on the channel
are recorded in `sent` (their transport result is ignored, as in the
source). -/
def Client.processPacket (c : Client) (data : List Nat) : ProcResult :=
  match decode data with
  | Except.error s => ⟨c, [], none, [], s⟩
  | Except.ok packet =>
    if c.hasChannel packet.channel_id = false then
      ⟨c, [], none, [], Status.Unavailable⟩
    else
      match c.findCall packet with
      | none =>
        -- Don't send responses to errors to avoid infinite error cycles.
        if packet.type = PacketType.SERVER_ERROR then
          ⟨c, [], none, [], Status.OK⟩
        else
          ⟨c, [], none,
           [Packet.ClientError packet Status.FailedPrecondition],
           Status.OK⟩
      | some call =>
        match packet.type with
        | PacketType.RESPONSE =>
          if call.has_server_stream then
            let h := streamHandleCompleted c call packet.status
            ⟨h.1, h.2.1, h.2.2, [], Status.OK⟩
          else
            let h := unaryHandleCompleted c call packet.payload packet.status
            ⟨h.1, h.2.1, h.2.2, [], Status.OK⟩
        | PacketType.SERVER_ERROR =>
          let h := handleError c call packet.status
          ⟨h.1, h.2.1, h.2.2, [], Status.OK⟩
        | PacketType.SERVER_STREAM =>
          if call.has_server_stream then
            let h := handlePayload c call packet.payload
            ⟨h.1, h.2.1, h.2.2, [], Status.OK⟩
          else
            let h := handleError c call Status.InvalidArgument
            ⟨h.1, h.2.1, h.2.2,
             [Packet.ClientError packet Status.InvalidArgument],
             Status.OK⟩
        | _ =>
          ⟨c, [], none, [], Status.OK⟩

/-- Run a sequence of buffers through `processPacket`, recording for
each step the endpoint it started from, the input buffer and the step's
result. -/
def Client.runSteps (c : Client) (ds : List (List Nat)) :
    List (Client × List Nat × ProcResult) :=
  match ds with
  | [] => []
  | d :: rest =>
    let r := c.processPacket d
    (c, d, r) :: r.client.runSteps rest

/-! Concrete sample endpoint used to exercise the theorems: one
registered channel (id 1), one unary call and one server-streaming call
in flight. -/

/-- A unary call (identity (1,2,3,4), no server stream). -/
def unaryCall : Call := ⟨⟨1, 2, 3, 4⟩, false⟩

/-- A server-streaming call (identity (1,2,3,5)). -/
def streamCall : Call := ⟨⟨1, 2, 3, 5⟩, true⟩

/-- A client endpoint with channel 1 registered and both sample calls
active. -/
def sampleClient : Client := ⟨[1], [unaryCall, streamCall]⟩

/-- Encoded RESPONSE packet for the unary call, status OK, payload
[10, 20]. -/
def dResponse : List Nat := [1, 2, 3, 4, 1, 0, 10, 20]

/-- The packet `dResponse` decodes to. -/
def pResponse : Packet := ⟨1, 2, 3, 4, PacketType.RESPONSE, Status.OK, [10, 20]⟩

/-- Encoded SERVER_STREAM packet addressed to the unary call (a type
mismatch), status OK, payload [7]. -/
def dBadStream : List Nat := [1, 2, 3, 4, 5, 0, 7]

/-- The packet `dBadStream` decodes to. -/
def pBadStream : Packet := ⟨1, 2, 3, 4, PacketType.SERVER_STREAM, Status.OK, [7]⟩

/-- Encoded SERVER_STREAM packet for the streaming call, payload [7]. -/
def dStream : List Nat := [1, 2, 3, 5, 5, 0, 7]

/-- The packet `dStream` decodes to. -/
def pStream : Packet := ⟨1, 2, 3, 5, PacketType.SERVER_STREAM, Status.OK, [7]⟩

/-- Encoded SERVER_ERROR packet for an identity with no active call. -/
def dStrayError : List Nat := [1, 2, 3, 9, 4, 14]

/-- The packet `dStrayError` decodes to. -/
def pStrayError : Packet := ⟨1, 2, 3, 9, PacketType.SERVER_ERROR, Status.Unavailable, []⟩

/-- Encoded RESPONSE packet for an identity with no active call. -/
def dStrayResponse : List Nat := [1, 2, 3, 9, 1, 0]

/-- The packet `dStrayResponse` decodes to. -/
def pStrayResponse : Packet := ⟨1, 2, 3, 9, PacketType.RESPONSE, Status.OK, []⟩

/-- Encoded CANCEL packet addressed to the unary call (a type the
client does not handle). -/
def dCancel : List Nat := [1, 2, 3, 4, 6, 0]

/-- The packet `dCancel` decodes to. -/
def pCancel : Packet := ⟨1, 2, 3, 4, PacketType.CANCEL, Status.OK, []⟩

/-- Encoded RESPONSE packet on a channel (2) not registered with
`sampleClient`. -/
def dBadChannel : List Nat := [2, 2, 3, 4, 1, 0]

/-- The packet `dBadChannel` decodes to. -/
def pBadChannel : Packet := ⟨2, 2, 3, 4, PacketType.RESPONSE, Status.OK, []⟩

/-! Helper lemmas about the registry operations. -/

/-- Every call left registered after an identity-based unregister has a
different identity. -/
theorem mem_unregister_ne (c : Client) (i : CallIdent) (k : Call)
    (h : k ∈ (c.unregisterCall i).calls) : k.ident ≠ i := by
  simp only [Client.unregisterCall, List.mem_filter, Bool.not_eq_eq_eq_not,
    Bool.not_true, beq_eq_false_iff_ne, ne_eq] at h
  exact h.2

/-- After unregistering a packet's identity, lookup for that packet
fails. -/
theorem findCall_unregister (c : Client) (p : Packet) :
    (c.unregisterCall p.ident).findCall p = none := by
  rw [Client.findCall, List.find?_eq_none]
  intro k hk
  have := mem_unregister_ne c p.ident k hk
  simpa using this

/-- Packet processing never adds calls to the registry: every call
registered afterwards was registered before. -/
theorem processPacket_calls_subset (c : Client) (d : List Nat) (k : Call)
    (hk : k ∈ (c.processPacket d).client.calls) : k ∈ c.calls := by
  unfold Client.processPacket at hk
  repeat' split at hk
  all_goals
    first
      | exact hk
      | (simp only [unaryHandleCompleted, streamHandleCompleted, handleError,
          handlePayload, Client.unregisterCall, List.mem_filter] at hk
         exact hk.1)

/-- If no registered call bears identity `i`, that stays true across any
processed packet. -/
theorem absent_preserved (c : Client) (d : List Nat) (i : CallIdent)
    (h : ∀ k ∈ c.calls, k.ident ≠ i) :
    ∀ k ∈ (c.processPacket d).client.calls, k.ident ≠ i :=
  fun k hk => h k (processPacket_calls_subset c d k hk)

/-- If no registered call bears the packet's identity, call resolution
fails. -/
theorem absent_findCall_none (c : Client) (q : Packet)
    (h : ∀ k ∈ c.calls, k.ident ≠ q.ident) : c.findCall q = none := by
  rw [Client.findCall, List.find?_eq_none]
  intro k hk
  simpa using h k hk

/-- A packet that resolves to no call produces no handler invocation. -/
theorem absent_no_events (c : Client) (d : List Nat) (q : Packet)
    (hdec : decode d = Except.ok q)
    (hfind : c.findCall q = none) :
    (c.processPacket d).events = [] := by
  unfold Client.processPacket
  rw [hdec]
  by_cases hch : c.hasChannel q.channel_id = false
  · simp [hch]
  · simp only [hch, hfind, if_false, ite_false]
    repeat' split
    all_goals rfl

/-- Along any run starting from an endpoint where identity `i` is
absent, every step whose packet bears identity `i` resolves no call and
invokes no handler. -/
theorem runSteps_absent (i : CallIdent) (ds : List (List Nat)) (c : Client)
    (h : ∀ k ∈ c.calls, k.ident ≠ i) :
    ∀ step ∈ c.runSteps ds, ∀ q : Packet,
      decode step.2.1 = Except.ok q → q.ident = i →
        step.1.findCall q = none ∧ step.2.2.events = [] := by
  induction ds generalizing c with
  | nil =>
    intro step hstep
    simp [Client.runSteps] at hstep
  | cons d rest ih =>
    intro step hstep q hq hqi
    simp only [Client.runSteps, List.mem_cons] at hstep
    rcases hstep with hstep | hstep
    · subst hstep
      have habs : ∀ k ∈ c.calls, k.ident ≠ q.ident := by
        intro k hk
        rw [hqi]
        exact h k hk
      have hf := absent_findCall_none c q habs
      exact ⟨hf, absent_no_events c d q hq hf⟩
    · exact ih (c.processPacket d).client (absent_preserved c d i h)
        step hstep q hq hqi

/-- A resolved call matches the packet's identity. -/
theorem findCall_ident (c : Client) (p : Packet) (k : Call)
    (hfind : c.findCall p = some k) : k.ident = p.ident := by
  have := List.find?_some hfind
  simpa using this

/-- Processing a terminal packet (RESPONSE or SERVER_ERROR) for a
resolved call leaves the registry equal to the input registry with the
packet's identity unregistered. -/
theorem terminal_unregisters (c : Client) (d : List Nat) (p : Packet) (k : Call)
    (hdec : decode d = Except.ok p)
    (hch : c.hasChannel p.channel_id = true)
    (hfind : c.findCall p = some k)
    (hterm : p.type = PacketType.RESPONSE ∨ p.type = PacketType.SERVER_ERROR) :
    (c.processPacket d).client = c.unregisterCall p.ident := by
  have hkid := findCall_ident c p k hfind
  rcases hterm with hty | hty
  · cases hs : k.has_server_stream
    · simp [Client.processPacket, hdec, hch, hfind, hty, hs,
        unaryHandleCompleted, hkid]
    · simp [Client.processPacket, hdec, hch, hfind, hty, hs,
        streamHandleCompleted, hkid]
  · simp [Client.processPacket, hdec, hch, hfind, hty, handleError, hkid]

/-- C1: for every successfully decoded SERVER_ERROR packet on a known
channel that resolves to no active call, ProcessPacket sends zero
packets (it never answers an error with an error), invokes no handler,
changes no state, and returns OK. -/
theorem no_error_loops (c : Client) (d : List Nat) (p : Packet)
    (hdec : decode d = Except.ok p)
    (hch : c.hasChannel p.channel_id = true)
    (hfind : c.findCall p = none)
    (hty : p.type = PacketType.SERVER_ERROR) :
    c.processPacket d = ⟨c, [], none, [], Status.OK⟩ := by
  simp [Client.processPacket, hdec, hch, hfind, hty]

/-- C1 witness: a stray SERVER_ERROR for identity (1,2,3,9) is dropped
silently. -/
theorem no_error_loops_witness :
    sampleClient.processPacket dStrayError =
      ⟨sampleClient, [], none, [], Status.OK⟩ :=
  no_error_loops sampleClient dStrayError pStrayError rfl rfl rfl rfl

/-- C5: for every successfully decoded non-error packet on a known
channel that resolves to no active call, ProcessPacket sends exactly one
CLIENT_ERROR packet with status FailedPrecondition, invokes no handler,
leaves the endpoint unchanged, and returns OK. -/
theorem unmatched_call_notification (c : Client) (d : List Nat) (p : Packet)
    (hdec : decode d = Except.ok p)
    (hch : c.hasChannel p.channel_id = true)
    (hfind : c.findCall p = none)
    (hty : p.type ≠ PacketType.SERVER_ERROR) :
    (c.processPacket d).sent =
      [Packet.ClientError p Status.FailedPrecondition] ∧
    (Packet.ClientError p Status.FailedPrecondition).type =
      PacketType.CLIENT_ERROR ∧
    (Packet.ClientError p Status.FailedPrecondition).status =
      Status.FailedPrecondition ∧
    (c.processPacket d).client = c ∧
    (c.processPacket d).events = [] ∧
    (c.processPacket d).ret = Status.OK := by
  simp [Client.processPacket, hdec, hch, hfind, hty, Packet.ClientError]

/-- C5 witness: a stray RESPONSE for identity (1,2,3,9) yields one
FailedPrecondition CLIENT_ERROR. -/
theorem unmatched_call_notification_witness :
    (sampleClient.processPacket dStrayResponse).sent =
      [Packet.ClientError pStrayResponse Status.FailedPrecondition] ∧
    (Packet.ClientError pStrayResponse Status.FailedPrecondition).type =
      PacketType.CLIENT_ERROR ∧
    (Packet.ClientError pStrayResponse Status.FailedPrecondition).status =
      Status.FailedPrecondition ∧
    (sampleClient.processPacket dStrayResponse).client = sampleClient ∧
    (sampleClient.processPacket dStrayResponse).events = [] ∧
    (sampleClient.processPacket dStrayResponse).ret = Status.OK :=
  unmatched_call_notification sampleClient dStrayResponse pStrayResponse
    rfl rfl rfl (by decide)

/-- C6: for every input buffer that fails to decode, ProcessPacket
returns the decode-failure status with no side effects: endpoint
unchanged, no handler invoked, no call terminated, no packet sent. -/
theorem decode_failure_no_side_effects (c : Client) (d : List Nat) (s : Status)
    (hdec : decode d = Except.error s) :
    c.processPacket d = ⟨c, [], none, [], s⟩ := by
  simp [Client.processPacket, hdec]

/-- C6 witness: a three-byte buffer fails to decode and is rejected
without side effects. -/
theorem decode_failure_no_side_effects_witness :
    sampleClient.processPacket [1, 2, 3] =
      ⟨sampleClient, [], none, [], Status.DataLoss⟩ :=
  decode_failure_no_side_effects sampleClient [1, 2, 3] Status.DataLoss rfl

/-- C7: for every successfully decoded packet whose channel is not
registered, ProcessPacket returns Unavailable and registers or mutates
no call: endpoint unchanged, no handler invoked, no call terminated, no
packet sent. -/
theorem unknown_channel_isolation (c : Client) (d : List Nat) (p : Packet)
    (hdec : decode d = Except.ok p)
    (hch : c.hasChannel p.channel_id = false) :
    c.processPacket d = ⟨c, [], none, [], Status.Unavailable⟩ := by
  simp [Client.processPacket, hdec, hch]

/-- C7 witness: a RESPONSE on unregistered channel 2 is dropped with
Unavailable. -/
theorem unknown_channel_isolation_witness :
    sampleClient.processPacket dBadChannel =
      ⟨sampleClient, [], none, [], Status.Unavailable⟩ :=
  unknown_channel_isolation sampleClient dBadChannel pBadChannel rfl rfl

/-- C9: for every successfully decoded packet on a known channel that
resolves to an active call but whose type is none of RESPONSE,
SERVER_ERROR, SERVER_STREAM, ProcessPacket consumes the packet with no
state transition (endpoint unchanged, no handler, no termination, no
send) and returns OK. -/
theorem unhandled_type_ignored (c : Client) (d : List Nat) (p : Packet)
    (k : Call)
    (hdec : decode d = Except.ok p)
    (hch : c.hasChannel p.channel_id = true)
    (hfind : c.findCall p = some k)
    (hty1 : p.type ≠ PacketType.RESPONSE)
    (hty2 : p.type ≠ PacketType.SERVER_ERROR)
    (hty3 : p.type ≠ PacketType.SERVER_STREAM) :
    c.processPacket d = ⟨c, [], none, [], Status.OK⟩ := by
  cases hty : p.type <;>
    simp_all [Client.processPacket, hdec, hch, hfind, hty]

/-- C9 witness: a CANCEL packet addressed to the active unary call is
logged and ignored. -/
theorem unhandled_type_ignored_witness :
    sampleClient.processPacket dCancel =
      ⟨sampleClient, [], none, [], Status.OK⟩ :=
  unhandled_type_ignored sampleClient dCancel pCancel unaryCall
    rfl rfl rfl (by decide) (by decide) (by decide)

/-- C3: for every RESPONSE packet resolving to an active call, the
matching completion handler fires exactly once — the stream-completion
handler with only the status when the call has a server stream, the
unary-completion handler with (payload, status) otherwise — and the call
transitions to Completed and is unregistered (it no longer resolves). -/
theorem response_completes_call (c : Client) (d : List Nat) (p : Packet)
    (k : Call)
    (hdec : decode d = Except.ok p)
    (hch : c.hasChannel p.channel_id = true)
    (hfind : c.findCall p = some k)
    (hty : p.type = PacketType.RESPONSE) :
    (c.processPacket d).events =
      (if k.has_server_stream then [Event.streamCompleted p.status]
       else [Event.unaryCompleted p.payload p.status]) ∧
    (c.processPacket d).terminated = some (k, CallState.Completed) ∧
    (c.processPacket d).client = c.unregisterCall p.ident ∧
    (c.processPacket d).client.findCall p = none ∧
    (c.processPacket d).sent = [] ∧
    (c.processPacket d).ret = Status.OK := by
  have hkid := findCall_ident c p k hfind
  have hcl : (c.processPacket d).client = c.unregisterCall p.ident :=
    terminal_unregisters c d p k hdec hch hfind (Or.inl hty)
  refine ⟨?_, ?_, hcl, ?_, ?_, ?_⟩ <;>
    first
      | (rw [hcl]; exact findCall_unregister c p)
      | cases hs : k.has_server_stream <;>
          simp [Client.processPacket, hdec, hch, hfind, hty, hs,
            unaryHandleCompleted, streamHandleCompleted]

/-- C3 witness: the RESPONSE with payload [10, 20] completes the unary
call once with ([10, 20], OK) and unregisters it. -/
theorem response_completes_call_witness :
    (sampleClient.processPacket dResponse).events =
      (if unaryCall.has_server_stream
       then [Event.streamCompleted pResponse.status]
       else [Event.unaryCompleted pResponse.payload pResponse.status]) ∧
    (sampleClient.processPacket dResponse).terminated =
      some (unaryCall, CallState.Completed) ∧
    (sampleClient.processPacket dResponse).client =
      sampleClient.unregisterCall pResponse.ident ∧
    (sampleClient.processPacket dResponse).client.findCall pResponse = none ∧
    (sampleClient.processPacket dResponse).sent = [] ∧
    (sampleClient.processPacket dResponse).ret = Status.OK :=
  response_completes_call sampleClient dResponse pResponse unaryCall
    rfl rfl rfl rfl

/-- C4: a SERVER_STREAM packet resolving to a call without a server
stream delivers exactly one local InvalidArgument error (the call
transitions to Errored and is unregistered) and sends exactly one
CLIENT_ERROR packet to the peer. -/
theorem stream_type_mismatch_defense (c : Client) (d : List Nat) (p : Packet)
    (k : Call)
    (hdec : decode d = Except.ok p)
    (hch : c.hasChannel p.channel_id = true)
    (hfind : c.findCall p = some k)
    (hty : p.type = PacketType.SERVER_STREAM)
    (hs : k.has_server_stream = false) :
    (c.processPacket d).events =
      [Event.errorDelivered Status.InvalidArgument] ∧
    (c.processPacket d).terminated = some (k, CallState.Errored) ∧
    (c.processPacket d).client = c.unregisterCall p.ident ∧
    (c.processPacket d).client.findCall p = none ∧
    (c.processPacket d).sent =
      [Packet.ClientError p Status.InvalidArgument] ∧
    (c.processPacket d).ret = Status.OK := by
  have hkid := findCall_ident c p k hfind
  have hcl : (c.processPacket d).client = c.unregisterCall p.ident := by
    simp [Client.processPacket, hdec, hch, hfind, hty, hs, handleError, hkid]
  refine ⟨?_, ?_, hcl, ?_, ?_, ?_⟩ <;>
    first
      | (rw [hcl]; exact findCall_unregister c p)
      | simp [Client.processPacket, hdec, hch, hfind, hty, hs, handleError]

/-- C4 witness: the SERVER_STREAM addressed to the unary call yields one
InvalidArgument error delivery and one CLIENT_ERROR send. -/
theorem stream_type_mismatch_defense_witness :
    (sampleClient.processPacket dBadStream).events =
      [Event.errorDelivered Status.InvalidArgument] ∧
    (sampleClient.processPacket dBadStream).terminated =
      some (unaryCall, CallState.Errored) ∧
    (sampleClient.processPacket dBadStream).client =
      sampleClient.unregisterCall pBadStream.ident ∧
    (sampleClient.processPacket dBadStream).client.findCall pBadStream =
      none ∧
    (sampleClient.processPacket dBadStream).sent =
      [Packet.ClientError pBadStream Status.InvalidArgument] ∧
    (sampleClient.processPacket dBadStream).ret = Status.OK :=
  stream_type_mismatch_defense sampleClient dBadStream pBadStream unaryCall
    rfl rfl rfl rfl rfl

/-- C8: a SERVER_STREAM packet resolving to a call with a server stream
delivers the payload to the stream handler and changes nothing else: the
endpoint is unchanged (the call stays registered and active), no
completion or error handler fires, no call is terminated, no packet is
sent, and the result is OK. -/
theorem server_stream_payload_delivery (c : Client) (d : List Nat) (p : Packet)
    (k : Call)
    (hdec : decode d = Except.ok p)
    (hch : c.hasChannel p.channel_id = true)
    (hfind : c.findCall p = some k)
    (hty : p.type = PacketType.SERVER_STREAM)
    (hs : k.has_server_stream = true) :
    (c.processPacket d).client = c ∧
    (c.processPacket d).events = [Event.streamPayload p.payload] ∧
    (c.processPacket d).terminated = none ∧
    (c.processPacket d).sent = [] ∧
    (c.processPacket d).ret = Status.OK ∧
    (c.processPacket d).client.findCall p = some k := by
  have hcl : (c.processPacket d).client = c := by
    simp [Client.processPacket, hdec, hch, hfind, hty, hs, handlePayload]
  refine ⟨hcl, ?_, ?_, ?_, ?_, ?_⟩ <;>
    first
      | (rw [hcl]; exact hfind)
      | simp [Client.processPacket, hdec, hch, hfind, hty, hs, handlePayload]

/-- C8 witness: the SERVER_STREAM with payload [7] for the streaming
call delivers [7] and leaves the endpoint unchanged. -/
theorem server_stream_payload_delivery_witness :
    (sampleClient.processPacket dStream).client = sampleClient ∧
    (sampleClient.processPacket dStream).events =
      [Event.streamPayload pStream.payload] ∧
    (sampleClient.processPacket dStream).terminated = none ∧
    (sampleClient.processPacket dStream).sent = [] ∧
    (sampleClient.processPacket dStream).ret = Status.OK ∧
    (sampleClient.processPacket dStream).client.findCall pStream =
      some streamCall :=
  server_stream_payload_delivery sampleClient dStream pStream streamCall
    rfl rfl rfl rfl rfl

/-- C10: every outbound CLIENT_ERROR packet is built from the inbound
packet that triggered it: it carries the inbound packet's channel_id,
service_id, method_id and call_id; its status is FailedPrecondition on
the unmatched-call path and InvalidArgument on the stream-type-mismatch
path. -/
theorem client_error_correlates (c : Client) (d : List Nat) (p : Packet)
    (hdec : decode d = Except.ok p) :
    ∀ q ∈ (c.processPacket d).sent,
      q.type = PacketType.CLIENT_ERROR ∧
      q.channel_id = p.channel_id ∧
      q.service_id = p.service_id ∧
      q.method_id = p.method_id ∧
      q.call_id = p.call_id ∧
      (c.findCall p = none → q.status = Status.FailedPrecondition) ∧
      (∀ k, c.findCall p = some k → q.status = Status.InvalidArgument) := by
  intro q hq
  by_cases hch : c.hasChannel p.channel_id = false
  · simp [Client.processPacket, hdec, hch] at hq
  · have hch2 : c.hasChannel p.channel_id = true := by
      cases h2 : c.hasChannel p.channel_id
      · exact absurd h2 hch
      · rfl
    cases hf : c.findCall p with
    | none =>
      by_cases hty : p.type = PacketType.SERVER_ERROR
      · simp [Client.processPacket, hdec, hch2, hf, hty] at hq
      · simp [Client.processPacket, hdec, hch2, hf, hty] at hq
        subst hq
        simp [Packet.ClientError, hf]
    | some k =>
      by_cases hstream : p.type = PacketType.SERVER_STREAM
      · by_cases hs : k.has_server_stream
        · simp [Client.processPacket, hdec, hch2, hf, hstream, hs,
            handlePayload] at hq
        · simp [Client.processPacket, hdec, hch2, hf, hstream, hs,
            handleError] at hq
          subst hq
          simp [Packet.ClientError, hf]
      · have hsent : (c.processPacket d).sent = [] := by
          cases hty : p.type <;>
            first
              | exact absurd hty hstream
              | (cases hs : k.has_server_stream <;>
                  simp [Client.processPacket, hdec, hch2, hf, hty, hs,
                    unaryHandleCompleted, streamHandleCompleted, handleError])
        rw [hsent] at hq
        simp at hq

/-- C10 witness: the CLIENT_ERROR sent for the stray RESPONSE carries
the stray packet's identifiers and status FailedPrecondition. -/
theorem client_error_correlates_witness :
    (Packet.ClientError pStrayResponse Status.FailedPrecondition).type =
      PacketType.CLIENT_ERROR ∧
    (Packet.ClientError pStrayResponse Status.FailedPrecondition).channel_id =
      pStrayResponse.channel_id ∧
    (Packet.ClientError pStrayResponse Status.FailedPrecondition).service_id =
      pStrayResponse.service_id ∧
    (Packet.ClientError pStrayResponse Status.FailedPrecondition).method_id =
      pStrayResponse.method_id ∧
    (Packet.ClientError pStrayResponse Status.FailedPrecondition).call_id =
      pStrayResponse.call_id ∧
    (sampleClient.findCall pStrayResponse = none →
      (Packet.ClientError pStrayResponse Status.FailedPrecondition).status =
        Status.FailedPrecondition) ∧
    (∀ k, sampleClient.findCall pStrayResponse = some k →
      (Packet.ClientError pStrayResponse Status.FailedPrecondition).status =
        Status.InvalidArgument) :=
  client_error_correlates sampleClient dStrayResponse pStrayResponse rfl
    (Packet.ClientError pStrayResponse Status.FailedPrecondition)
    (by decide)

/-- C2: once a terminal packet (RESPONSE or SERVER_ERROR) resolves to an
active call, that call is unregistered, and along any subsequent run
every packet bearing the same identity fails to resolve to a call and
produces no handler invocation — so the completion or error handler
fires at most once over the call's lifetime. -/
theorem handler_at_most_once (c : Client) (d : List Nat) (p : Packet)
    (k : Call)
    (hdec : decode d = Except.ok p)
    (hch : c.hasChannel p.channel_id = true)
    (hfind : c.findCall p = some k)
    (hterm : p.type = PacketType.RESPONSE ∨
      p.type = PacketType.SERVER_ERROR) :
    (∀ k2 ∈ (c.processPacket d).client.calls, k2.ident ≠ p.ident) ∧
    (∀ ds : List (List Nat),
      ∀ step ∈ Client.runSteps (c.processPacket d).client ds,
        ∀ q : Packet, decode step.2.1 = Except.ok q → q.ident = p.ident →
          step.1.findCall q = none ∧ step.2.2.events = []) := by
  have hcl := terminal_unregisters c d p k hdec hch hfind hterm
  have habs : ∀ k2 ∈ (c.processPacket d).client.calls, k2.ident ≠ p.ident := by
    intro k2 hk2
    rw [hcl] at hk2
    exact mem_unregister_ne c p.ident k2 hk2
  exact ⟨habs,
    fun ds => runSteps_absent p.ident ds (c.processPacket d).client habs⟩

/-- C2 witness: after the RESPONSE completes the unary call, a second
identical RESPONSE resolves to no call and fires no handler. -/
theorem handler_at_most_once_witness :
    ((sampleClient.processPacket dResponse).client.findCall pResponse =
      none) ∧
    ((sampleClient.processPacket dResponse).client.processPacket
      dResponse).events = [] := by
  have h := handler_at_most_once sampleClient dResponse pResponse unaryCall
    rfl rfl rfl (Or.inl rfl)
  have hs := h.2 [dResponse]
    ((sampleClient.processPacket dResponse).client, dResponse,
      (sampleClient.processPacket dResponse).client.processPacket dResponse)
    (by simp [Client.runSteps]) pResponse rfl rfl
  exact hs

end PwRpc
